import Mathlib

/-!
Verification of the VLESS proxy server core (vless-rust).

Shallow embedding of the protocol codec (`src/protocol.rs`), the Vision
inner-TLS detector (`src/xtls.rs`) and the per-session control flow of
`src/server.rs`.  Byte buffers are modelled as `List Nat`; reads that the
Rust `bytes::Buf` trait performs with a panicking bounds assertion
(`get_u8`, `get_u16`, `copy_to_slice`) are modelled by a three-valued
decode outcome (`ok` / `err` / `panicked`).
-/

namespace Vless

/-- Three-valued outcome of a fallible decoding step.  `err` models a
returned `anyhow::Error`; `panicked` models an out-of-bounds `bytes::Buf`
read, which in Rust aborts the task instead of returning `Err`. -/
inductive DecodeResult (α : Type) where
  | ok (val : α)
  | err
  | panicked
deriving DecidableEq

/-- `Command` from src/protocol.rs lines 11-16 (Tcp = 1, Udp = 2, Mux = 3). -/
inductive Command where
  | tcp
  | udp
  | mux
deriving DecidableEq

/-- `TryFrom<u8> for Command`, src/protocol.rs lines 18-29. -/
def Command.tryFrom (v : Nat) : Option Command :=
  if v = 1 then some .tcp
  else if v = 2 then some .udp
  else if v = 3 then some .mux
  else none

/-- `Address` from src/protocol.rs lines 53-58.  The domain is kept as its
byte list; `String::from_utf8` in the source validates the bytes and keeps
them unchanged. -/
inductive Addr where
  | ipv4 (octets : List Nat)
  | domain (bytes : List Nat)
  | ipv6 (octets : List Nat)
deriving DecidableEq

/-- A UTF-8 continuation byte (`0x80..=0xBF`). -/
def isCont (b : Nat) : Bool := 0x80 ≤ b && b ≤ 0xBF

/-- UTF-8 validity of a byte list, as enforced by `String::from_utf8` in
the source (src/protocol.rs line 85): the standard table — ASCII, two-byte
`0xC2..0xDF`, three-byte with the `0xE0`/`0xED` restrictions excluding
overlongs and surrogates, four-byte with the `0xF0`/`0xF4` restrictions
capping at U+10FFFF. -/
def utf8Valid : List Nat → Bool
  | [] => true
  | b :: rest =>
    if b ≤ 0x7F then utf8Valid rest
    else if 0xC2 ≤ b ∧ b ≤ 0xDF then
      match rest with
      | c1 :: rest2 => isCont c1 && utf8Valid rest2
      | [] => false
    else if b = 0xE0 then
      match rest with
      | c1 :: c2 :: rest2 => (0xA0 ≤ c1 && c1 ≤ 0xBF) && isCont c2 && utf8Valid rest2
      | _ => false
    else if 0xE1 ≤ b ∧ b ≤ 0xEC then
      match rest with
      | c1 :: c2 :: rest2 => isCont c1 && isCont c2 && utf8Valid rest2
      | _ => false
    else if b = 0xED then
      match rest with
      | c1 :: c2 :: rest2 => (0x80 ≤ c1 && c1 ≤ 0x9F) && isCont c2 && utf8Valid rest2
      | _ => false
    else if 0xEE ≤ b ∧ b ≤ 0xEF then
      match rest with
      | c1 :: c2 :: rest2 => isCont c1 && isCont c2 && utf8Valid rest2
      | _ => false
    else if b = 0xF0 then
      match rest with
      | c1 :: c2 :: c3 :: rest2 =>
          (0x90 ≤ c1 && c1 ≤ 0xBF) && isCont c2 && isCont c3 && utf8Valid rest2
      | _ => false
    else if 0xF1 ≤ b ∧ b ≤ 0xF3 then
      match rest with
      | c1 :: c2 :: c3 :: rest2 => isCont c1 && isCont c2 && isCont c3 && utf8Valid rest2
      | _ => false
    else if b = 0xF4 then
      match rest with
      | c1 :: c2 :: c3 :: rest2 =>
          (0x80 ≤ c1 && c1 ≤ 0x8F) && isCont c2 && isCont c3 && utf8Valid rest2
      | _ => false
    else false

/-- `Address::decode`, src/protocol.rs lines 61-97.  Every read in this
function is guarded by an explicit length check, so no branch panics:
address-type byte (1 = IPv4 needs 4 bytes, 2 = domain needs a length byte,
that many domain bytes and UTF-8 validity, 3 = IPv6 needs 16 bytes); any
other type byte is an error. -/
def Addr.decode (buf : List Nat) : DecodeResult (Addr × List Nat) :=
  match buf with
  | [] => .err
  | t :: rest =>
    if t = 1 then
      if rest.length < 4 then .err
      else .ok (.ipv4 (rest.take 4), rest.drop 4)
    else if t = 2 then
      match rest with
      | [] => .err
      | len :: rest2 =>
        if rest2.length < len then .err
        else if utf8Valid (rest2.take len) then .ok (.domain (rest2.take len), rest2.drop len)
        else .err
    else if t = 3 then
      if rest.length < 16 then .err
      else .ok (.ipv6 (rest.take 16), rest.drop 16)
    else .err

/-- `VlessRequest`, src/protocol.rs lines 109-120. -/
structure VlessRequest where
  version : Nat
  uuid : List Nat
  addonsLength : Nat
  addons : List Nat
  command : Command
  port : Nat
  address : Addr
deriving DecidableEq

/-- `VlessRequest::decode`, src/protocol.rs lines 123-171, read for read:
* reject when the buffer has fewer than 18 bytes;
* read the version byte and reject values other than 0 and 1;
* copy 16 UUID bytes, read the addons-length byte `L`;
* when `L > 0`, error out if fewer than `L` bytes remain, else copy them;
* read the command byte with `get_u8` — the source has NO length check
  here, so an empty remainder panics (`bytes::Buf` asserts `remaining ≥ 1`);
* read the port with `get_u16` (big-endian) — again unchecked, so fewer
  than 2 remaining bytes panic;
* decode the address (fully guarded, see `Addr.decode`). -/
def VlessRequest.decode (buf : List Nat) : DecodeResult (VlessRequest × List Nat) :=
  if buf.length < 18 then .err
  else
    let version := buf.getD 0 0
    if version ≠ 0 ∧ version ≠ 1 then .err
    else
      let uuid := (buf.drop 1).take 16
      let addonsLength := buf.getD 17 0
      let rest0 := buf.drop 18
      if addonsLength > 0 ∧ rest0.length < addonsLength then .err
      else
        let addons := rest0.take addonsLength
        match rest0.drop addonsLength with
        | [] => .panicked
        | c :: rest2 =>
          match Command.tryFrom c with
          | none => .err
          | some command =>
            match rest2 with
            | p1 :: p2 :: rest3 =>
              match Addr.decode rest3 with
              | .ok (address, rest4) =>
                .ok (⟨version, uuid, addonsLength, addons, command, p1 * 256 + p2, address⟩,
                     rest4)
              | .err => .err
              | .panicked => .panicked
            | _ => .panicked

/-- `VlessResponse`, src/protocol.rs lines 176-180. -/
structure VlessResponse where
  version : Nat
  addonsLength : Nat
  addons : List Nat
deriving DecidableEq

/-- `VlessResponse::new_with_version`, src/protocol.rs lines 183-189. -/
def VlessResponse.newWithVersion (v : Nat) : VlessResponse := ⟨v, 0, []⟩

/-- `VlessResponse::encode`, src/protocol.rs lines 191-199: version byte,
addons-length byte, then the addons bytes (none when empty). -/
def VlessResponse.encode (r : VlessResponse) : List Nat :=
  r.version :: r.addonsLength :: r.addons

/-- `TlsContentType::is_tls_record`, src/xtls.rs lines 56-59:
`matches!(b, 20..=23)`. -/
def isTlsRecord (b : Nat) : Bool := 20 ≤ b && b ≤ 23

/-- `detect_tls_content`, src/xtls.rs lines 479-539, check for check:
empty input is rejected; the first byte must be a TLS content type
(`20..=23`); at least 5 bytes are required; the version major byte must be
`0x03` and the minor byte in `0x01..=0x04`; the big-endian record length in
bytes 3-4 must be at most 16384; and the buffer must hold the full
announced record (`len ≥ 5 + length`). -/
def detect_tls_content (data : List Nat) : Bool :=
  match data with
  | [] => false
  | b0 :: _ =>
    if ¬ isTlsRecord b0 then false
    else if data.length < 5 then false
    else if data.getD 1 0 ≠ 3 then false
    else if data.getD 2 0 < 1 ∨ 4 < data.getD 2 0 then false
    else if 16384 < data.getD 3 0 * 256 + data.getD 4 0 then false
    else if data.length < 5 + (data.getD 3 0 * 256 + data.getD 4 0) then false
    else true

/-- `VisionState`, src/xtls.rs lines 63-73. -/
inductive VisionState where
  | earlyData
  | detecting
  | spliced
  | normal
deriving DecidableEq

/-- Relay-mode choice of `VisionProcessor::process_connection`,
src/xtls.rs lines 172-195: after the sniff read, `detect_tls_content`
decides between the `Spliced` zero-copy path and the `Normal` encrypted
forwarding path. -/
def visionStateAfterDetect (detectData : List Nat) : VisionState :=
  if detect_tls_content detectData then .spliced else .normal

/-- `XtlsFlow` as referenced by src/server.rs and src/xtls.rs through
`crate::protocol::XtlsFlow`.  Modelled from the spec: the definition and
the flow-derivation code are absent from src/src/protocol.rs even though
server.rs reads `request.xtls_flow`; the spec (§4.1) fixes the variants
{None, Vision, Vision-UDP-443}. -/
inductive XtlsFlow where
  | none
  | xtlsRprxVision
  | xtlsRprxVisionUdp443
deriving DecidableEq

/-- Byte list of the ASCII tag `xtls-rprx-vision`. -/
def visionTagBytes : List Nat := "xtls-rprx-vision".toList.map Char.toNat

/-- Byte list of the ASCII tag `xtls-rprx-vision-udp443`. -/
def udp443TagBytes : List Nat := "xtls-rprx-vision-udp443".toList.map Char.toNat

/-- Substring containment over byte lists: some suffix of the haystack
starts with the needle. -/
def containsTag (hay needle : List Nat) : Bool :=
  hay.tails.any fun t => needle.isPrefixOf t

/-- Modelled from the spec: flow derivation from the addons payload is
missing from src/src/protocol.rs.  Spec §4.1: if the addons contain the
ASCII tag `xtls-rprx-vision-udp443` the flow is Vision-UDP-443; else if
they contain `xtls-rprx-vision` the flow is Vision; else None.  Tag search
is a substring match over the addons payload. -/
def parseXtlsFlow (addons : List Nat) : XtlsFlow :=
  if containsTag addons udp443TagBytes then .xtlsRprxVisionUdp443
  else if containsTag addons visionTagBytes then .xtlsRprxVision
  else .none

/-- Flow field of a decoded request, as the server consumes it
(`request.xtls_flow`): derived from the addons during decoding. -/
def decodedFlow (buf : List Nat) : Option XtlsFlow :=
  match VlessRequest.decode buf with
  | .ok (req, _) => some (parseXtlsFlow req.addons)
  | _ => Option.none

/-- An event of the relay phase of a session: a chunk written to the
target or a chunk written back to the client.  The relay loops of
src/server.rs (lines 630-716, 963-1083) only ever write bytes they just
read; no relay loop writes a response frame. -/
inductive RelayEvent where
  | toTarget (bs : List Nat)
  | toClient (bs : List Nat)
deriving DecidableEq

/-- An externally visible event of a whole session.  `respToClient` is the
single response write at src/server.rs line 525. -/
inductive SessionEvent where
  | respToClient (bs : List Nat)
  | relayToTarget (bs : List Nat)
  | relayToClient (bs : List Nat)
deriving DecidableEq

/-- View a relay event as a session event. -/
def RelayEvent.lift : RelayEvent → SessionEvent
  | .toTarget bs => .relayToTarget bs
  | .toClient bs => .relayToClient bs

/-- Whether a session event is the response frame write. -/
def SessionEvent.isResp : SessionEvent → Bool
  | .respToClient _ => true
  | _ => false

/-- How a session terminates, as seen by the caller of
`handle_connection_after_handshake` (src/server.rs lines 444-589). -/
inductive SessionResult where
  | proceeded
  | errInvalidUuid
  | errDecode
  | panicked
deriving DecidableEq

/-- External surface of one session: the ordered event trace, the change
to the active-connections counter, the change to the rejected-connections
counter, and the result. -/
structure SessionOutcome where
  trace : List SessionEvent
  connDelta : Nat
  rejectedDelta : Nat
  result : SessionResult
deriving DecidableEq

/-- `handle_connection_after_handshake`, src/server.rs lines 444-589
(the TLS path, lines 321-441, is line for line the same around these
events):
* decode the header (line 502); a decode error closes the connection with
  no bytes written and no counter change;
* an unknown UUID (lines 507-510) likewise returns `Err("Invalid user
  UUID")` before the `ConnectionGuard` is created and before anything is
  written;
* otherwise the guard increments the active-connections counter
  (lines 49-58, 521), the two-byte response is written (lines 524-525),
  and the relay phase follows.  The relay events are a parameter: they are
  whatever the proxy loops produce, and those loops cannot emit a
  `respToClient` event (they only write relayed chunks).
`increment_rejected_connections` (src/stats.rs line 271) has no caller, so
`rejectedDelta` is 0 on every path. -/
def runSession (users : List (List Nat)) (buf : List Nat) (relay : List RelayEvent) :
    SessionOutcome :=
  match VlessRequest.decode buf with
  | .ok (req, _remaining) =>
    if req.uuid ∈ users then
      { trace := .respToClient (VlessResponse.newWithVersion req.version).encode ::
          relay.map RelayEvent.lift
        connDelta := 1
        rejectedDelta := 0
        result := .proceeded }
    else
      { trace := [], connDelta := 0, rejectedDelta := 0, result := .errInvalidUuid }
  | .err => { trace := [], connDelta := 0, rejectedDelta := 0, result := .errDecode }
  | .panicked => { trace := [], connDelta := 0, rejectedDelta := 0, result := .panicked }

/-- Byte stream written to the target by `handle_bidirectional_transfer`,
src/server.rs lines 592-672: the initial data (`remaining` after the
header) is written first (lines 605-615), then each chunk read from the
client is written in order (lines 631-662). -/
def uploadStream (initialData : List Nat) (clientChunks : List (List Nat)) : List Nat :=
  initialData ++ clientChunks.flatten

/-- Datagrams sent to the pinned destination by `handle_udp_proxy`,
src/server.rs lines 919-1028: the `_initial_data` parameter (line 922) is
never referenced again, and the upload loop (lines 970-1028) sends exactly
one datagram per chunk read from the client TCP side. -/
def udpDatagramsSent (_initialData : List Nat) (clientChunks : List (List Nat)) :
    List (List Nat) :=
  clientChunks

/-- A socket address, compared for equality like `SocketAddr` in the
source: an opaque host identifier paired with a port. -/
abbrev SockAddr := Nat × Nat

/-- Chunks written to the client TCP stream by the download loop of
`handle_udp_proxy`, src/server.rs lines 1042-1064: each received datagram
is forwarded iff its source equals the pinned destination
(`if src == target_addr`); all others fall through silently. -/
def udpDownloadWrites (pinned : SockAddr) : List (SockAddr × List Nat) → List (List Nat)
  | [] => []
  | (src, data) :: rest =>
    if src = pinned then data :: udpDownloadWrites pinned rest
    else udpDownloadWrites pinned rest

/-- Bytes counted by the same download loop (`total`/`batch_total` are
only incremented inside the `src == target_addr` branch,
src/server.rs lines 1046-1048). -/
def udpDownloadCounted (pinned : SockAddr) : List (SockAddr × List Nat) → Nat
  | [] => 0
  | (src, data) :: rest =>
    if src = pinned then data.length + udpDownloadCounted pinned rest
    else udpDownloadCounted pinned rest

/-- Counter state of the connection governor: active sessions and
rejected accepts. -/
structure GovState where
  active : Nat
  rejected : Nat
deriving DecidableEq

/-- A session-lifecycle event at the accept loop. -/
inductive GovOp where
  | sessionStart
  | sessionEnd
deriving DecidableEq

/-- Accept-loop counter semantics from the source: `VlessServer::run`
(src/server.rs lines 148-183) accepts and spawns a handler with no
admission check of any kind — there is no semaphore and no non-blocking
acquire — and each authenticated session increments the active counter via
`ConnectionGuard::new` / `increment_connections` (src/server.rs lines
49-58, src/stats.rs lines 257-259) and decrements it on drop
(`decrement_connections`, saturating at 0, src/stats.rs lines 261-265).
`increment_rejected_connections` (src/stats.rs line 271) is never called. -/
def govStep (s : GovState) : GovOp → GovState
  | .sessionStart => ⟨s.active + 1, s.rejected⟩
  | .sessionEnd => ⟨s.active - 1, s.rejected⟩

/-- Fold the governor counters over a sequence of session events,
starting from the zero state. -/
def govRun (ops : List GovOp) : GovState :=
  ops.foldl govStep ⟨0, 0⟩

/-- An 18-byte buffer: version 1, an all-zero UUID, addons length 0 —
nothing left for the command byte. -/
def shortBuf : List Nat := 1 :: (List.replicate 16 0 ++ [0])

/-- A well-formed 26-byte request: version 1, all-zero UUID, no addons,
command TCP, port 443, IPv4 address 127.0.0.1, no trailing payload. -/
def sampleBuf : List Nat :=
  1 :: (List.replicate 16 0 ++ [0, 1, 1, 187, 1, 127, 0, 0, 1])

/-- The decoded form of `sampleBuf`. -/
def sampleReq : VlessRequest :=
  ⟨1, List.replicate 16 0, 0, [], .tcp, 443, .ipv4 [127, 0, 0, 1]⟩

/-- A 23-byte request whose address is a domain of length 0: version 1,
all-zero UUID, no addons, command TCP, port 80, address type 2, domain
length 0. -/
def zeroDomainBuf : List Nat :=
  1 :: (List.replicate 16 0 ++ [0, 1, 0, 80, 2, 0])

/-- The decoded form of `zeroDomainBuf`. -/
def zeroDomainReq : VlessRequest :=
  ⟨1, List.replicate 16 0, 0, [], .tcp, 80, .domain []⟩

/-- A request advertising the Vision flow: version 1, all-zero UUID,
16 addon bytes holding the ASCII tag `xtls-rprx-vision`, command TCP,
port 443, IPv4 address 127.0.0.1. -/
def visionReqBuf : List Nat :=
  1 :: (List.replicate 16 0 ++ 16 :: visionTagBytes ++ [1, 1, 187, 1, 127, 0, 0, 1])

/-- The decoded form of `visionReqBuf`. -/
def visionReq : VlessRequest :=
  ⟨1, List.replicate 16 0, 16, visionTagBytes, .tcp, 443, .ipv4 [127, 0, 0, 1]⟩

/-! ### Helper lemmas -/

/-- Characterisation of `detect_tls_content` as the conjunction of the
five checks of src/xtls.rs lines 479-539. -/
theorem detect_tls_content_iff (B : List Nat) :
    detect_tls_content B = true ↔
      5 ≤ B.length ∧
        (B.getD 0 0 = 20 ∨ B.getD 0 0 = 21 ∨ B.getD 0 0 = 22 ∨ B.getD 0 0 = 23) ∧
        B.getD 1 0 = 3 ∧
        (B.getD 2 0 = 1 ∨ B.getD 2 0 = 2 ∨ B.getD 2 0 = 3 ∨ B.getD 2 0 = 4) ∧
        B.getD 3 0 * 256 + B.getD 4 0 ≤ 16384 ∧
        5 + (B.getD 3 0 * 256 + B.getD 4 0) ≤ B.length := by
  cases B with
  | nil => simp [detect_tls_content]
  | cons b0 rest =>
    simp only [detect_tls_content, isTlsRecord, Bool.and_eq_true, decide_eq_true_eq,
      List.getD_cons_zero, List.getD_cons_succ, List.length_cons, Bool.not_eq_true,
      not_and, not_le]
    split_ifs with h1 h2 h3 h4 h5 h6 <;> simp_all <;> omega

/-- A lifted relay event is never a response-frame event. -/
theorem RelayEvent.lift_isResp (r : RelayEvent) : (RelayEvent.lift r).isResp = false := by
  cases r <;> rfl

/-- Filtering lifted relay events for response frames yields nothing. -/
theorem filter_resp_map_lift (relay : List RelayEvent) :
    (relay.map RelayEvent.lift).filter SessionEvent.isResp = [] := by
  induction relay with
  | nil => rfl
  | cons r rest ih => simp [List.filter_cons, RelayEvent.lift_isResp, ih]

/-! ### Claims -/

/-- Claim C1 (code bug): `VlessRequest::decode` is NOT total — on an
18-byte buffer (version, 16 UUID bytes, addons length 0) the unchecked
`buf.get_u8()` read of the command byte asserts `remaining >= 1` on an
empty buffer and panics instead of returning an error; the spec's
`len(buf) ≥ L+1+2+1` check does not exist in the code. -/
theorem decode_truncated_header_panics :
    shortBuf.length = 18 ∧ VlessRequest.decode shortBuf = .panicked := by
  decide

/-- Claim C2 (code bug): the TCP relay does forward `remaining` as the
first upload bytes, but `handle_udp_proxy` ignores its `_initial_data`
parameter, so for a UDP session with non-empty `remaining` the first
datagram sent to the pinned destination is the first subsequently read
client chunk, not `remaining`. -/
theorem udp_initial_data_dropped :
    uploadStream [97] [[98], [99]] = [97, 98, 99] ∧
      udpDatagramsSent [97] [[98]] = [[98]] ∧
      (udpDatagramsSent [97] [[98]]).head? ≠ some [97] := by
  decide

/-- Claim C3: for every accepted session (header decodes, UUID in the
user set) the server writes exactly one two-byte response frame
`[version, 0x00]`, echoing the request version, and this write precedes
every relayed event in either direction. -/
theorem session_response_precedes_relay
    (users : List (List Nat)) (buf : List Nat) (relay : List RelayEvent)
    (req : VlessRequest) (rem : List Nat)
    (hdec : VlessRequest.decode buf = .ok (req, rem))
    (hauth : req.uuid ∈ users) :
    (runSession users buf relay).trace
        = .respToClient [req.version, 0] :: relay.map RelayEvent.lift ∧
      (runSession users buf relay).trace.filter SessionEvent.isResp
        = [.respToClient [req.version, 0]] := by
  have htr : (runSession users buf relay).trace
      = .respToClient [req.version, 0] :: relay.map RelayEvent.lift := by
    simp [runSession, hdec, hauth, VlessResponse.newWithVersion, VlessResponse.encode]
  refine ⟨htr, ?_⟩
  rw [htr]
  simp [List.filter_cons, SessionEvent.isResp, filter_resp_map_lift]

/-- Concrete instance of the C3 theorem on `sampleBuf`. -/
theorem session_response_precedes_relay_witness :
    VlessRequest.decode sampleBuf = .ok (sampleReq, []) ∧
      sampleReq.uuid ∈ [List.replicate 16 0] ∧
      ((runSession [List.replicate 16 0] sampleBuf [.toTarget [72]]).trace
          = .respToClient [sampleReq.version, 0]
              :: [RelayEvent.toTarget [72]].map RelayEvent.lift ∧
        (runSession [List.replicate 16 0] sampleBuf [.toTarget [72]]).trace.filter
            SessionEvent.isResp
          = [.respToClient [sampleReq.version, 0]]) :=
  ⟨by decide, by decide,
    session_response_precedes_relay [List.replicate 16 0] sampleBuf [.toTarget [72]]
      sampleReq [] (by decide) (by decide)⟩

/-- Claim C4: the flow field of a decoded request is derived by substring
search over the addons payload — Vision-UDP-443 when the addons contain
the ASCII tag `xtls-rprx-vision-udp443`, Vision when they contain
`xtls-rprx-vision` but not the udp443 tag, and None otherwise. -/
theorem decoded_flow_matches_tags
    (buf : List Nat) (req : VlessRequest) (rem : List Nat)
    (hdec : VlessRequest.decode buf = .ok (req, rem)) :
    decodedFlow buf = some (parseXtlsFlow req.addons) ∧
      (parseXtlsFlow req.addons = .xtlsRprxVisionUdp443 ↔
        containsTag req.addons udp443TagBytes = true) ∧
      (parseXtlsFlow req.addons = .xtlsRprxVision ↔
        (containsTag req.addons visionTagBytes = true ∧
          containsTag req.addons udp443TagBytes = false)) ∧
      (parseXtlsFlow req.addons = .none ↔
        (containsTag req.addons visionTagBytes = false ∧
          containsTag req.addons udp443TagBytes = false)) := by
  refine ⟨by simp [decodedFlow, hdec], ?_, ?_, ?_⟩ <;>
    unfold parseXtlsFlow <;>
    cases h1 : containsTag req.addons udp443TagBytes <;>
    cases h2 : containsTag req.addons visionTagBytes <;>
    simp [h1, h2]

/-- Concrete instance of the C4 theorem on `visionReqBuf`. -/
theorem decoded_flow_matches_tags_witness :
    VlessRequest.decode visionReqBuf = .ok (visionReq, []) ∧
      (decodedFlow visionReqBuf = some (parseXtlsFlow visionReq.addons) ∧
        (parseXtlsFlow visionReq.addons = .xtlsRprxVisionUdp443 ↔
          containsTag visionReq.addons udp443TagBytes = true) ∧
        (parseXtlsFlow visionReq.addons = .xtlsRprxVision ↔
          (containsTag visionReq.addons visionTagBytes = true ∧
            containsTag visionReq.addons udp443TagBytes = false)) ∧
        (parseXtlsFlow visionReq.addons = .none ↔
          (containsTag visionReq.addons visionTagBytes = false ∧
            containsTag visionReq.addons udp443TagBytes = false))) :=
  ⟨by decide, decoded_flow_matches_tags visionReqBuf visionReq [] (by decide)⟩

/-- Claim C5: `detect_tls_content B` is true exactly when `B` has at
least 5 bytes, `B[0] ∈ {20, 21, 22, 23}`, `B[1] = 3`, `B[2] ∈ {1, 2, 3, 4}`,
the big-endian length in `B[3..5]` is at most 16384, and `B` holds the
full announced record; the relay then transitions to `Spliced` exactly on
a positive detection, to the non-splice path otherwise. -/
theorem vision_detector_spec :
    ∀ B : List Nat,
      (detect_tls_content B = true ↔
        5 ≤ B.length ∧
          (B.getD 0 0 = 20 ∨ B.getD 0 0 = 21 ∨ B.getD 0 0 = 22 ∨ B.getD 0 0 = 23) ∧
          B.getD 1 0 = 3 ∧
          (B.getD 2 0 = 1 ∨ B.getD 2 0 = 2 ∨ B.getD 2 0 = 3 ∨ B.getD 2 0 = 4) ∧
          B.getD 3 0 * 256 + B.getD 4 0 ≤ 16384 ∧
          5 + (B.getD 3 0 * 256 + B.getD 4 0) ≤ B.length) ∧
      (visionStateAfterDetect B = .spliced ↔ detect_tls_content B = true) ∧
      (visionStateAfterDetect B = .normal ↔ detect_tls_content B = false) := by
  intro B
  refine ⟨detect_tls_content_iff B, ?_, ?_⟩ <;>
    unfold visionStateAfterDetect <;>
    cases h : detect_tls_content B <;> simp [h]

/-- Claim C6: Vision detection is monotone under extension of the sniffed
chunk — if `B` is a prefix of B2 and `detect_tls_content B` holds, then
`detect_tls_content B2` holds. -/
theorem vision_detection_monotone (B B2 : List Nat) (hpre : B <+: B2)
    (hdet : detect_tls_content B = true) : detect_tls_content B2 = true := by
  obtain ⟨t, rfl⟩ := hpre
  rw [detect_tls_content_iff] at hdet ⊢
  obtain ⟨hlen, h0, h1, h2, h3, h4⟩ := hdet
  have e0 : (B ++ t).getD 0 0 = B.getD 0 0 := List.getD_append _ _ _ _ (by omega)
  have e1 : (B ++ t).getD 1 0 = B.getD 1 0 := List.getD_append _ _ _ _ (by omega)
  have e2 : (B ++ t).getD 2 0 = B.getD 2 0 := List.getD_append _ _ _ _ (by omega)
  have e3 : (B ++ t).getD 3 0 = B.getD 3 0 := List.getD_append _ _ _ _ (by omega)
  have e4 : (B ++ t).getD 4 0 = B.getD 4 0 := List.getD_append _ _ _ _ (by omega)
  have elen : B.length ≤ (B ++ t).length := by simp
  rw [e0, e1, e2, e3, e4]
  exact ⟨le_trans hlen elen, h0, h1, h2, h3, le_trans h4 elen⟩

/-- Concrete instance of the C6 theorem: a valid 5-byte record stays
detected after appending a byte. -/
theorem vision_detection_monotone_witness :
    ([22, 3, 1, 0, 0] <+: [22, 3, 1, 0, 0, 9]) ∧
      detect_tls_content [22, 3, 1, 0, 0] = true ∧
      detect_tls_content [22, 3, 1, 0, 0, 9] = true :=
  ⟨⟨[9], rfl⟩, by decide,
    vision_detection_monotone [22, 3, 1, 0, 0] [22, 3, 1, 0, 0, 9] ⟨[9], rfl⟩ (by decide)⟩

/-- Claim C7: a connection whose decoded UUID is not in the user set
produces no bytes to the client, changes no counter, and ends in an
error — the same external surface (empty trace, zero counter deltas) as a
malformed header. -/
theorem unauthenticated_session_surface
    (users : List (List Nat)) (buf : List Nat) (relay : List RelayEvent)
    (req : VlessRequest) (rem : List Nat)
    (hdec : VlessRequest.decode buf = .ok (req, rem))
    (hauth : req.uuid ∉ users) :
    runSession users buf relay = ⟨[], 0, 0, .errInvalidUuid⟩ ∧
      ∀ buf2 relay2, VlessRequest.decode buf2 = .err →
        runSession users buf2 relay2 = ⟨[], 0, 0, .errDecode⟩ := by
  constructor
  · simp [runSession, hdec, hauth]
  · intro buf2 relay2 h2
    simp [runSession, h2]

/-- Concrete instance of the C7 theorem: `sampleBuf` against an empty
user set. -/
theorem unauthenticated_session_surface_witness :
    VlessRequest.decode sampleBuf = .ok (sampleReq, []) ∧
      sampleReq.uuid ∉ ([] : List (List Nat)) ∧
      runSession [] sampleBuf [] = ⟨[], 0, 0, .errInvalidUuid⟩ :=
  ⟨by decide, by decide,
    (unauthenticated_session_surface [] sampleBuf [] sampleReq [] (by decide)
        (by decide)).1⟩

/-- Claim C8: the UDP download loop writes to the client exactly the
datagrams whose source equals the pinned destination, in order, and
counts exactly those bytes; datagrams from any other source are never
forwarded and never counted. -/
theorem udp_download_only_from_pinned :
    ∀ (pinned : SockAddr) (packets : List (SockAddr × List Nat)),
      udpDownloadWrites pinned packets
          = (packets.filter fun p => decide (p.1 = pinned)).map Prod.snd ∧
        udpDownloadCounted pinned packets
          = ((packets.filter fun p => decide (p.1 = pinned)).map
              fun p => p.2.length).sum := by
  intro pinned packets
  induction packets with
  | nil => exact ⟨rfl, rfl⟩
  | cons p rest ih =>
    obtain ⟨src, data⟩ := p
    by_cases h : src = pinned <;>
      simp [udpDownloadWrites, udpDownloadCounted, h, List.filter_cons, ih.1, ih.2]

/-- Claim C9 counterexample: a full header with address type 2 and
domain-length byte 0 decodes successfully (with an empty domain), so the
claimed error is not returned. -/
theorem zero_length_domain_accepted :
    VlessRequest.decode zeroDomainBuf = .ok (zeroDomainReq, []) ∧
      VlessRequest.decode zeroDomainBuf ≠ .err ∧
      zeroDomainReq.address = .domain [] := by
  decide

/-- Claim C9 as amended: a domain-length byte of 0 is accepted and yields
an empty domain with the rest of the buffer untouched, while every domain
whose bytes are not valid UTF-8 produces an error — for any length byte
and any remainder, when the addressed domain bytes fail UTF-8 validation
the decode returns an error. -/
theorem domain_decode_amended :
    (∀ rest : List Nat, Addr.decode (2 :: 0 :: rest) = .ok (.domain [], rest)) ∧
      ∀ (len : Nat) (rest2 : List Nat), utf8Valid (rest2.take len) = false →
        Addr.decode (2 :: len :: rest2) = .err := by
  constructor
  · intro rest
    have hnil : utf8Valid [] = true := rfl
    simp [Addr.decode, hnil]
  · intro len rest2 h
    by_cases hlen : rest2.length < len
    · simp [Addr.decode, hlen]
    · simp [Addr.decode, hlen, h]

/-- Concrete instance of the amended C9 theorem's UTF-8 clause: the
single byte 0xFF is not valid UTF-8 and decoding it as a length-1 domain
errors. -/
theorem domain_decode_amended_witness :
    utf8Valid (List.take 1 [255]) = false ∧ Addr.decode [2, 1, 255] = .err :=
  ⟨by decide, domain_decode_amended.2 1 [255] (by decide)⟩

/-- Claim C10 (code bug): the accept loop enforces no concurrency cap —
starting two sessions from the idle state yields two concurrently active
sessions with the rejected counter still 0, violating the claimed
invariant for `max_connections = 1`. -/
theorem governor_cap_not_enforced :
    govRun [.sessionStart, .sessionStart] = ⟨2, 0⟩ ∧
      ¬ (govRun [.sessionStart, .sessionStart]).active ≤ 1 := by
  decide

end Vless
